import Mathlib

/-
Verification development for the Sponsorship Manager backend
(src/main.py and src/schemas.py).

The file shallowly embeds the proposal synthesizer, the sponsor matcher,
the sponsor relationship tracker, the dashboard aggregator and the
outreach email composer in Lean 4, and proves theorems about them.

Modelling conventions:
- Python ints are Nat/Int; Python floats appearing here are modelled as
  exact rationals (all prices manipulated by the code are multiples of
  1/4, which are exact in binary floating point, so the rational model
  agrees with the float computation on every value reached).
- Python `or` / truthiness on optional values is modelled explicitly:
  None, 0, "" and [] are falsy.
- The MongoDB handle `db` (provided by database.py) may be None; a
  present database is modelled as an explicit in-memory store.
  `update_one` / `find_one` / `count_documents` follow pymongo
  semantics: `update_one` updates the first matching document and
  reports success even when nothing matches.
- `bson.ObjectId(s)` accepts exactly 24-character hexadecimal strings
  and raises otherwise; validity is modelled by `isValidObjectId`.
-/

set_option maxRecDepth 65536

namespace SponsorshipManager

/-! ### String helpers (models of Python string operations) -/

/-- Models Python `str.lower()` for the ASCII strings used by the code. -/
def lowerStr (s : String) : String :=
  String.mk (s.toList.map Char.toLower)

/-- Models Python `s.replace(" ", "")`. -/
def removeSpaces (s : String) : String :=
  String.mk (s.toList.filter (fun c => c ≠ ' '))

/-- Does the first list start with the second one? -/
def startsWithL : List Char → List Char → Bool
  | _, [] => true
  | [], _ :: _ => false
  | h :: hs, n :: ns => h == n && startsWithL hs ns

/-- Substring containment on character lists. -/
def containsSubL : List Char → List Char → Bool
  | [], needle => needle.isEmpty
  | h :: hs, needle => startsWithL (h :: hs) needle || containsSubL hs needle

/-- Models the Python expression `needle in hay` on strings. -/
def strContainsSub (hay needle : String) : Bool :=
  containsSubL hay.toList needle.toList

/-- Models Python `", ".join(l)`. -/
def joinCommaSep : List String → String
  | [] => ""
  | [s] => s
  | s :: t :: rest => s ++ ", " ++ joinCommaSep (t :: rest)

/-- Inserts a comma after every third character of a reversed digit list. -/
def groupRev : List Char → List Char
  | a :: b :: c :: d :: rest => a :: b :: c :: ',' :: groupRev (d :: rest)
  | l => l

/-- Models the Python format `f"{n:,}"`: decimal digits grouped in
thousands with commas. -/
def formatComma (n : Nat) : String :=
  String.mk ((groupRev (toString n).toList.reverse).reverse)

/-! ### Python truthiness helpers -/

/-- Models `o or d` for an optional int (`None` and `0` are falsy). -/
def pyOrNat (o : Option Nat) (d : Nat) : Nat :=
  match o with
  | some n => if n = 0 then d else n
  | none => d

/-- Models `o or d` for an optional string (`None` and `""` are falsy). -/
def pyOrStr (o : Option String) (d : String) : String :=
  match o with
  | some s => if s = "" then d else s
  | none => d

/-- Models `o or d` for an optional list (`None` and `[]` are falsy). -/
def pyOrList {α : Type} (o : Option (List α)) (d : List α) : List α :=
  match o with
  | some l => if l.isEmpty then d else l
  | none => d

/-- Models the Python slice `l[:n]` for an int bound `n`
(negative bounds count from the end of the list). -/
def pyTake {α : Type} (n : ℤ) (l : List α) : List α :=
  if 0 ≤ n then l.take n.toNat else l.take ((l.length : ℤ) + n).toNat

/-! ### Data model (schemas.py) -/

/-- The sponsor status literal of `schemas.Sponsor.status`. -/
inductive Status where
  | new
  | contacted
  | in_discussion
  | pending
  | confirmed
  | declined
deriving DecidableEq, Repr

/-- The string stored in the database for each status value. -/
def statusToStr : Status → String
  | .new => "new"
  | .contacted => "contacted"
  | .in_discussion => "in_discussion"
  | .pending => "pending"
  | .confirmed => "confirmed"
  | .declined => "declined"

/-- schemas.ProposalInput. -/
structure ProposalInput where
  title : String
  description : String
  date : Option String := none
  location : Option String := none
  audience_size : Option Nat := none
  demographics : Option String := none
  engagement_channels : Option (List String) := some []
  objectives : Option (List String) := some []
  industries_target : Option (List String) := some []
deriving DecidableEq, Repr

/-- schemas.BenefitTier. -/
structure BenefitTier where
  name : String
  price : ℚ
  benefits : List String
deriving DecidableEq, Repr

/-- schemas.Proposal. -/
structure Proposal where
  title : String
  description : String
  date : Option String := none
  location : Option String := none
  audience_summary : String
  value_proposition : List String
  tiers : List BenefitTier
  objectives : List String := []
deriving DecidableEq, Repr

/-- schemas.Sponsor. -/
structure Sponsor where
  name : String
  industry : String
  location : String
  email : Option String := none
  phone : Option String := none
  website : Option String := none
  status : Status := .new
  proposal_id : Option String := none
  notes : Option String := none
  next_follow_up : Option String := none
deriving DecidableEq, Repr

/-- schemas.FindSponsorsRequest. -/
structure FindSponsorsRequest where
  location : String
  industries : List String := []
  limit : ℤ := 10
deriving DecidableEq, Repr

/-- The tone literal of schemas.GenerateEmailRequest. -/
inductive Tone where
  | professional
  | friendly
  | concise
deriving DecidableEq, Repr

/-- schemas.GenerateEmailRequest. -/
structure GenerateEmailRequest where
  sponsor_id : String
  proposal_id : Option String := none
  tone : Tone := .professional
deriving DecidableEq, Repr

/-- schemas.UpdateStatusRequest. -/
structure UpdateStatusRequest where
  sponsor_id : String
  status : Status
deriving DecidableEq, Repr

/-- schemas.AddNoteRequest. -/
structure AddNoteRequest where
  sponsor_id : String
  note : String
deriving DecidableEq, Repr

/-! ### Proposal synthesizer (main.py lines 30-56) -/

/-- The reach fact of `synthesize_audience_summary`: the Python
conditional expression
`f"~{inp.audience_size:,} attendees" if inp.audience_size else "audience aligned to your niche"`
(the condition is truthiness, so both `None` and `0` take the fallback). -/
def reachPart (inp : ProposalInput) : String :=
  match inp.audience_size with
  | some n => if n = 0 then "audience aligned to your niche" else "~" ++ formatComma n ++ " attendees"
  | none => "audience aligned to your niche"

/-- The demographics fact of `synthesize_audience_summary`:
`inp.demographics or "Mixed age groups with strong local presence"`. -/
def demoPart (inp : ProposalInput) : String :=
  pyOrStr inp.demographics "Mixed age groups with strong local presence"

/-- The channels fact of `synthesize_audience_summary`:
`", ".join(inp.engagement_channels) if inp.engagement_channels else "email, social, on-site activations"`. -/
def chanPart (inp : ProposalInput) : String :=
  match inp.engagement_channels with
  | some l => if l.isEmpty then "email, social, on-site activations" else joinCommaSep l
  | none => "email, social, on-site activations"

/-- main.synthesize_audience_summary. -/
def synthesize_audience_summary (inp : ProposalInput) : String :=
  "Projected reach " ++ reachPart inp ++ ". Demographics: " ++ demoPart inp
    ++ ". Engagement via " ++ chanPart inp ++ "."

/-- Models Python `round(q, 2)` (round half to even at two decimals)
on exact rationals. -/
def round2 (q : ℚ) : ℚ :=
  ((if q * 100 - ⌊q * 100⌋ < 1 / 2 then ⌊q * 100⌋
    else if 1 / 2 < q * 100 - ⌊q * 100⌋ then ⌊q * 100⌋ + 1
    else if ⌊q * 100⌋ % 2 = 0 then ⌊q * 100⌋ else ⌊q * 100⌋ + 1 : ℤ) : ℚ) / 100

/-- The base price of `default_tiers`:
`max(500, (inp.audience_size or 500) * 0.5)` (0.5 is exactly 1/2). -/
def base_price (inp : ProposalInput) : ℚ :=
  max 500 ((pyOrNat inp.audience_size 500 : ℚ) * (1 / 2))

/-- main.default_tiers (3.5 is exactly 7/2). -/
def default_tiers (inp : ProposalInput) : List BenefitTier :=
  [ { name := "Bronze", price := round2 (base_price inp),
      benefits := ["Logo on website", "Social media mention", "2 event passes"] },
    { name := "Silver", price := round2 (base_price inp * 2),
      benefits := ["Medium logo placement", "2 dedicated social posts", "4 event passes", "Booth space"] },
    { name := "Gold", price := round2 (base_price inp * (7 / 2)),
      benefits := ["Prime logo placement", "Newsletter feature", "Stage shoutout", "6 event passes", "Lead capture access"] } ]

/-- main.value_points. -/
def value_points (_inp : ProposalInput) : List String :=
  [ "Direct access to target local audiences",
    "Brand visibility across digital and on-site touchpoints",
    "Measurable engagement and post-event reporting",
    "Long-term partnership opportunities" ]

/-! ### Document store (database handle modelled explicitly) -/

/-- Error raised through FastAPI HTTPException (status code and detail). -/
structure HTTPError where
  code : Nat
  detail : String
deriving DecidableEq, Repr

/-- A stored sponsor document: generated id, the sponsor fields, and the
`updated_at` timestamp set by the mutation endpoints. -/
structure SponsorDoc where
  oid : String
  sponsor : Sponsor
  updated_at : Option Nat := none
deriving DecidableEq, Repr

/-- A stored follow-up document (schemas.ScheduleFollowUp fields). -/
structure FollowUpDoc where
  oid : String
  sponsor_id : String
  due_date : String
  note : Option String := none
deriving DecidableEq, Repr

/-- The collections of the document store touched by the endpoints
under verification. -/
structure Store where
  sponsors : List SponsorDoc := []
  followups : List FollowUpDoc := []
  proposals : List Proposal := []
deriving DecidableEq, Repr

/-- Models `bson.ObjectId(s)` validity: exactly 24 hexadecimal
characters; the constructor raises on anything else. -/
def isHexChar (c : Char) : Bool :=
  c.isDigit || ('a' ≤ c && c ≤ 'f') || ('A' ≤ c && c ≤ 'F')

/-- A well-formed store identifier (see `isHexChar`). -/
def isValidObjectId (s : String) : Bool :=
  s.length == 24 && s.toList.all isHexChar

/-- Models pymongo `update_one`: applies `f` to the first document
satisfying `p`, and leaves the list unchanged when nothing matches. -/
def updateFirst {α : Type} (p : α → Bool) (f : α → α) : List α → List α
  | [] => []
  | d :: ds => if p d then f d :: ds else d :: updateFirst p f ds

/-! ### Proposal endpoint (main.py lines 60-74) -/

/-- main.generate_proposal: builds the Proposal from the input alone and
persists a snapshot via `create_document("proposal", ...)` from
database.py (not under src/), modelled from the spec as an append to the
store returning the stored value; the endpoint returns the proposal. -/
def generate_proposal (inp : ProposalInput) (store : Store) : Proposal × Store :=
  let proposal : Proposal :=
    { title := inp.title
      description := inp.description
      date := inp.date
      location := inp.location
      audience_summary := synthesize_audience_summary inp
      value_proposition := value_points inp
      tiers := default_tiers inp
      objectives := pyOrList inp.objectives [] }
  (proposal, { store with proposals := store.proposals ++ [proposal] })

/-! ### Sponsor matcher (main.py lines 134-155) -/

/-- A seed catalog entry. -/
structure SeedBusiness where
  name : String
  industry : String
  website : String
deriving DecidableEq, Repr

/-- main.SEED_BUSINESSES. -/
def SEED_BUSINESSES : List SeedBusiness :=
  [ { name := "City Fitness", industry := "Health & Wellness", website := "https://cityfitness.example" },
    { name := "Brewed Awakenings", industry := "Food & Beverage", website := "https://brew.example" },
    { name := "Green Wheels Bikes", industry := "Retail", website := "https://greenwheels.example" },
    { name := "Tech Hub Co-Work", industry := "Technology", website := "https://techhub.example" },
    { name := "River Bank Credit", industry := "Finance", website := "https://riverbank.example" } ]

/-- The match condition of `find_sponsors`:
`not req.industries or any(i.lower() in b["industry"].lower() for i in req.industries)`. -/
def industryMatches (industries : List String) (industry : String) : Bool :=
  industries.isEmpty || industries.any (fun i => strContainsSub (lowerStr industry) (lowerStr i))

/-- The Sponsor record synthesized by `find_sponsors` for a matching
seed business. -/
def mkSeedSponsor (location : String) (b : SeedBusiness) : Sponsor :=
  { name := b.name
    industry := b.industry
    location := location
    email := some ("info@" ++ lowerStr (removeSpaces b.name) ++ ".com")
    phone := some "(555) 123-4567"
    website := some b.website }

/-- main.find_sponsors: filters the seed catalog in order and slices the
result with `matches[: req.limit]`. -/
def find_sponsors (req : FindSponsorsRequest) : List Sponsor :=
  pyTake req.limit
    ((SEED_BUSINESSES.filter (fun b => industryMatches req.industries b.industry)).map
      (mkSeedSponsor req.location))

/-! ### Tracker endpoints (main.py lines 172-192) -/

/-- main.update_status: rejects a missing database handle with 500, a
malformed id with 400, and otherwise applies `update_one` on the sponsor
collection, setting status and `updated_at`; the response is ok even
when no document matched. -/
def update_status (db : Option Store) (req : UpdateStatusRequest) (now : Nat) :
    Except HTTPError (Store × Bool) :=
  match db with
  | none => .error { code := 500, detail := "Database not configured" }
  | some s =>
    if isValidObjectId req.sponsor_id then
      let setFields : SponsorDoc → SponsorDoc := fun d =>
        { d with sponsor := { d.sponsor with status := req.status }, updated_at := some now }
      .ok ({ s with sponsors := updateFirst (fun d => d.oid == req.sponsor_id) setFields s.sponsors }, true)
    else .error { code := 400, detail := "Invalid sponsor id" }

/-- main.add_note: parses the id first (400 on a malformed id); there is
no explicit handle check, so a missing database handle surfaces as an
unhandled TypeError, i.e. a 500 response; otherwise `update_one` sets
`notes` and `updated_at` on the first matching sponsor document. -/
def add_note (db : Option Store) (req : AddNoteRequest) (now : Nat) :
    Except HTTPError (Store × Bool) :=
  if isValidObjectId req.sponsor_id then
    match db with
    | none => .error { code := 500, detail := "Internal Server Error" }
    | some s =>
      let setFields : SponsorDoc → SponsorDoc := fun d =>
        { d with sponsor := { d.sponsor with notes := some req.note }, updated_at := some now }
      .ok ({ s with sponsors := updateFirst (fun d => d.oid == req.sponsor_id) setFields s.sponsors }, true)
  else .error { code := 400, detail := "Invalid sponsor id" }

/-! ### Dashboard aggregator (main.py lines 204-213) -/

/-- The status list enumerated by `dashboard_overview`. -/
def statusNames : List String :=
  ["new", "contacted", "in_discussion", "pending", "confirmed", "declined"]

/-- main.dashboard_overview: counts sponsors per status
(`count_documents` is a filter length; 0 for every status when the
handle is missing) and lists the first 5 follow-ups sorted by due_date
ascending (empty when the handle is missing). -/
def dashboard_overview (db : Option Store) : List (String × Nat) × List FollowUpDoc :=
  let counts := statusNames.map (fun s =>
    (s, match db with
        | some st => (st.sponsors.filter (fun d => statusToStr d.sponsor.status == s)).length
        | none => 0))
  let upcoming := match db with
    | some st => (st.followups.mergeSort (fun a b => decide (a.due_date ≤ b.due_date))).take 5
    | none => []
  (counts, upcoming)

/-! ### Outreach composer (main.py lines 217-238) -/

/-- The composer's response value. -/
structure EmailOut where
  subject : String
  body : String
deriving DecidableEq, Repr

/-- The sponsor lookup of `generate_outreach_email`: only attempted when
the handle and a truthy (non-empty) sponsor_id are present; a raising
`ObjectId` constructor is swallowed (`except Exception: sponsor = None`);
`find_one` returns the first matching document or None. -/
def lookupSponsor (db : Option Store) (sponsor_id : String) : Option SponsorDoc :=
  match db with
  | some st =>
    if sponsor_id ≠ "" then
      if isValidObjectId sponsor_id then st.sponsors.find? (fun d => d.oid == sponsor_id)
      else none
    else none
  | none => none

/-- main.generate_outreach_email. -/
def generate_outreach_email (db : Option Store) (req : GenerateEmailRequest) : EmailOut :=
  let sponsor := lookupSponsor db req.sponsor_id
  let company := match sponsor with
    | some d => d.sponsor.name
    | none => "Partner"
  { subject := "Sponsorship Opportunity: " ++ company ++ " x Our Event"
    body :=
      "Hello "
        ++ (if company ≠ "Partner" then company else "there")
        ++ ",\n\n"
        ++ "I\x27m reaching out to explore a potential sponsorship partnership. Based on your focus in "
        ++ (match sponsor with
            | some d => d.sponsor.industry
            | none => "your industry")
        ++ ", we believe there\x27s strong alignment with our audience.\n\n"
        ++ "Happy to send a tailored proposal and discuss options (Bronze, Silver, Gold) suited to your goals.\n\n"
        ++ "Best regards,\nYour Name" }

/-- The composer output when no sponsor document is found. -/
def partnerFallbackEmail : EmailOut :=
  { subject := "Sponsorship Opportunity: Partner x Our Event"
    body :=
      "Hello there,\n\nI\x27m reaching out to explore a potential sponsorship partnership. Based on your focus in your industry, we believe there\x27s strong alignment with our audience.\n\nHappy to send a tailored proposal and discuss options (Bronze, Silver, Gold) suited to your goals.\n\nBest regards,\nYour Name" }

/-! ### Concrete fixtures -/

/-- An input with no audience size. -/
def inpAbsent : ProposalInput :=
  { title := "Spring Fair", description := "Community festival" }

/-- An input with audience_size = 0. -/
def inpZero : ProposalInput :=
  { title := "Block Party", description := "Community event", audience_size := some 0 }

/-- An input with audience_size = 1200. -/
def inp1200 : ProposalInput :=
  { title := "Expo", description := "Trade expo", audience_size := some 1200 }

/-- A sponsor fixture. -/
def sponsorA : Sponsor :=
  { name := "City Fitness", industry := "Health & Wellness", location := "Austin" }

/-- A stored sponsor document fixture with a well-formed id. -/
def docA : SponsorDoc :=
  { oid := "0123456789abcdef01234567", sponsor := sponsorA }

/-- A store holding exactly one sponsor document. -/
def store1 : Store := { sponsors := [docA] }

/-! ### Helper lemmas -/

/-- round2 is the identity on rationals that are integral multiples of
1/100. -/
theorem round2_eq_self (q : ℚ) (z : ℤ) (h : q * 100 = (z : ℚ)) : round2 q = q := by
  unfold round2
  rw [h, Int.floor_intCast, if_pos (by norm_num)]
  have h100 : (100 : ℚ) ≠ 0 := by norm_num
  field_simp
  linarith [h]

/-- The base price is half of a natural number that is at least 1000. -/
theorem base_price_eq (inp : ProposalInput) :
    base_price inp = ((max 1000 (pyOrNat inp.audience_size 500) : ℕ) : ℚ) / 2 := by
  unfold base_price
  rcases le_total 1000 (pyOrNat inp.audience_size 500) with h | h
  · have hc : (1000 : ℚ) ≤ (pyOrNat inp.audience_size 500 : ℚ) := by exact_mod_cast h
    rw [Nat.max_eq_right h, max_eq_right (by linarith)]
    ring
  · have hc : (pyOrNat inp.audience_size 500 : ℚ) ≤ 1000 := by exact_mod_cast h
    rw [Nat.max_eq_left h, max_eq_left (by linarith)]
    push_cast
    norm_num

/-- The base price is at least 500. -/
theorem base_price_ge (inp : ProposalInput) : (500 : ℚ) ≤ base_price inp := by
  unfold base_price
  exact le_max_left _ _

/-- Rounding to two decimals is the identity on every price the tiers
reach: the base is a multiple of 1/2, so every price is a multiple of
1/4. -/
theorem round2_tier_prices (inp : ProposalInput) :
    round2 (base_price inp) = base_price inp
    ∧ round2 (base_price inp * 2) = base_price inp * 2
    ∧ round2 (base_price inp * (7 / 2)) = base_price inp * (7 / 2) := by
  obtain ⟨k, hk⟩ : ∃ k : ℕ, base_price inp = (k : ℚ) / 2 :=
    ⟨max 1000 (pyOrNat inp.audience_size 500), base_price_eq inp⟩
  refine ⟨round2_eq_self _ (50 * k) ?_, round2_eq_self _ (100 * k) ?_,
    round2_eq_self _ (175 * k) ?_⟩ <;> rw [hk] <;> push_cast <;> ring

/-- The three tier prices in closed form. -/
theorem tiers_price_eq (inp : ProposalInput) :
    (default_tiers inp).map BenefitTier.price
      = [base_price inp, base_price inp * 2, base_price inp * (7 / 2)] := by
  have h0 : (default_tiers inp).map BenefitTier.price
      = [round2 (base_price inp), round2 (base_price inp * 2),
         round2 (base_price inp * (7 / 2))] := rfl
  obtain ⟨h1, h2, h3⟩ := round2_tier_prices inp
  rw [h0, h1, h2, h3]

/-- Spec-side pricing base of the amended claim C1: `max(500,
audience_size * 0.5)` when audience_size is given, and 500 when it is
absent. -/
def specBase : Option ℕ → ℚ
  | some n => max 500 ((n : ℚ) * (1 / 2))
  | none => 500

/-- The pricing base exactly as claim C1 states it (base 250 when
audience_size is absent). -/
def claimBaseC1 : Option ℕ → ℚ
  | some n => max 500 ((n : ℚ) * (1 / 2))
  | none => 250

/-- The code's base price refines the amended spec-side base. -/
theorem base_price_spec (inp : ProposalInput) :
    base_price inp = specBase inp.audience_size := by
  unfold base_price pyOrNat specBase
  cases h : inp.audience_size with
  | none =>
    show max (500 : ℚ) (((500 : ℕ) : ℚ) * (1 / 2)) = 500
    push_cast
    rw [max_eq_left (by norm_num)]
  | some n =>
    by_cases hn : n = 0
    · subst hn
      show max (500 : ℚ) (((if (0 : ℕ) = 0 then 500 else 0 : ℕ) : ℚ) * (1 / 2))
          = max 500 (((0 : ℕ) : ℚ) * (1 / 2))
      rw [if_pos rfl]
      push_cast
      rw [max_eq_left (by norm_num), max_eq_left (by norm_num)]
    · show max (500 : ℚ) (((if n = 0 then 500 else n : ℕ) : ℚ) * (1 / 2))
          = max 500 ((n : ℚ) * (1 / 2))
      rw [if_neg hn]

/-- C1 (amended): for every input the tier prices are
Bronze = round(base, 2), Silver = round(base * 2, 2),
Gold = round(base * 3.5, 2), where base = max(500, audience_size * 0.5)
when audience_size is given and base = 500 (not 250) when it is absent;
for audience_size = 0 the prices are 500.0, 1000.0, 1750.0. -/
theorem c1_tier_pricing (inp : ProposalInput) :
    (default_tiers inp).map BenefitTier.price
      = [round2 (specBase inp.audience_size),
         round2 (specBase inp.audience_size * 2),
         round2 (specBase inp.audience_size * (7 / 2))]
    ∧ (inp.audience_size = some 0 →
        (default_tiers inp).map BenefitTier.price = [500, 1000, 1750]) := by
  have hs := base_price_spec inp
  obtain ⟨h1, h2, h3⟩ := round2_tier_prices inp
  constructor
  · rw [tiers_price_eq, ← hs, h1, h2, h3]
  · intro h0
    have hb : base_price inp = 500 := by
      rw [hs, h0]
      unfold specBase
      push_cast
      rw [max_eq_left (by norm_num)]
    rw [tiers_price_eq, hb]
    norm_num

/-- Witness for C1 at audience_size = 0. -/
theorem c1_tier_pricing_witness :
    (default_tiers inpZero).map BenefitTier.price = [500, 1000, 1750] :=
  (c1_tier_pricing inpZero).2 rfl

/-- Counterexample to C1 as stated: with audience_size absent the claim
mandates Bronze = round(250, 2) = 250, but the code prices Bronze at
500 (the 500 floor also applies to the fallback audience size). -/
theorem c1_claim_counterexample :
    (default_tiers inpAbsent).map BenefitTier.price = [500, 1000, 1750]
    ∧ round2 (claimBaseC1 none) = 250
    ∧ (500 : ℚ) ≠ 250 := by
  refine ⟨?_, ?_, by norm_num⟩
  · have hb : base_price inpAbsent = 500 := by
      unfold base_price inpAbsent pyOrNat
      push_cast
      rw [max_eq_left (by norm_num)]
    rw [tiers_price_eq, hb]
    norm_num
  · have h250 : claimBaseC1 none = 250 := rfl
    rw [h250]
    exact round2_eq_self _ 25000 (by norm_num)

/-- C5: every generated proposal has exactly the three tiers Bronze,
Silver, Gold in this order, with strictly increasing prices. -/
theorem c5_three_increasing_tiers (inp : ProposalInput) :
    (default_tiers inp).map BenefitTier.name = ["Bronze", "Silver", "Gold"]
    ∧ (default_tiers inp).length = 3
    ∧ ((default_tiers inp).map BenefitTier.price).Chain' (· < ·) := by
  refine ⟨rfl, rfl, ?_⟩
  rw [tiers_price_eq]
  have h5 := base_price_ge inp
  refine List.chain'_cons.2 ⟨by linarith, List.chain'_cons.2 ⟨by linarith, List.chain'_singleton _⟩⟩

/-- C3 (amended): the audience summary concatenates the three facts in
the order reach, demographics, channels; the thousands-grouped
attendee-count phrase is used exactly when audience_size is present and
nonzero (for an absent or zero audience_size the generic phrase is
used); demographics and channels fall back to fixed default phrases
when absent. -/
theorem c3_audience_summary (inp : ProposalInput) :
    synthesize_audience_summary inp
      = "Projected reach " ++ reachPart inp ++ ". Demographics: " ++ demoPart inp
          ++ ". Engagement via " ++ chanPart inp ++ "."
    ∧ (∀ n : ℕ, inp.audience_size = some n → n ≠ 0 →
        reachPart inp = "~" ++ formatComma n ++ " attendees")
    ∧ (inp.audience_size = none ∨ inp.audience_size = some 0 →
        reachPart inp = "audience aligned to your niche")
    ∧ (inp.demographics = none →
        demoPart inp = "Mixed age groups with strong local presence")
    ∧ (inp.engagement_channels = none ∨ inp.engagement_channels = some [] →
        chanPart inp = "email, social, on-site activations")
    ∧ (∀ l : List String, inp.engagement_channels = some l → l ≠ [] →
        chanPart inp = joinCommaSep l) := by
  refine ⟨rfl, ?_, ?_, ?_, ?_, ?_⟩
  · intro n hn hnz
    simp [reachPart, hn, hnz]
  · rintro (h | h) <;> simp [reachPart, h]
  · intro h
    simp [demoPart, pyOrStr, h]
  · rintro (h | h) <;> simp [chanPart, h]
  · intro l hl hlne
    simp [chanPart, hl, hlne]

/-- Witness for C3: an input with 1200 attendees takes the
thousands-grouped phrase, and one with no demographics takes the fixed
fallback phrase. -/
theorem c3_audience_summary_witness :
    reachPart inp1200 = "~" ++ formatComma 1200 ++ " attendees"
    ∧ demoPart inp1200 = "Mixed age groups with strong local presence" :=
  ⟨(c3_audience_summary inp1200).2.1 1200 rfl (by norm_num),
   (c3_audience_summary inp1200).2.2.2.1 rfl⟩

/-- Counterexample to C3 as stated: for audience_size = 0 the claim
mandates the attendee-count phrase, but the code produces the generic
phrase (Python truthiness makes 0 take the fallback branch) and the
summary does not mention attendees at all. -/
theorem c3_claim_counterexample :
    synthesize_audience_summary inpZero
      = "Projected reach audience aligned to your niche. Demographics: Mixed age groups with strong local presence. Engagement via email, social, on-site activations."
    ∧ containsSubL (synthesize_audience_summary inpZero).toList "attendees".toList = false := by
  exact ⟨rfl, by decide⟩

/-- An empty industry list matches every candidate. -/
theorem industryMatches_nil (industry : String) : industryMatches [] industry = true := rfl

/-- The River Bank Credit seed entry. -/
def riverBankSeed : SeedBusiness :=
  { name := "River Bank Credit", industry := "Finance", website := "https://riverbank.example" }

/-- Filtering the seed catalog for "Finance" keeps exactly the River
Bank Credit entry. -/
theorem filter_finance :
    SEED_BUSINESSES.filter (fun b => industryMatches ["Finance"] b.industry)
      = [riverBankSeed] := by decide

/-- C4: findSponsors returns, in seed-catalog order, the candidates
whose industry matches (empty request list matches all; otherwise some
requested industry must be a case-insensitive substring), truncated to
the limit; industries=[] yields the full 5-entry catalog capped at the
limit, industries=["Finance"] yields exactly the River Bank Credit
entry, and limit=0 yields the empty list. -/
theorem c4_find_sponsors :
    SEED_BUSINESSES.length = 5
    ∧ (∀ req : FindSponsorsRequest, 0 ≤ req.limit →
        find_sponsors req
          = ((SEED_BUSINESSES.filter (fun b => industryMatches req.industries b.industry)).map
              (mkSeedSponsor req.location)).take req.limit.toNat)
    ∧ (∀ (loc : String) (lim : ℤ), 0 ≤ lim →
        find_sponsors { location := loc, industries := [], limit := lim }
          = (SEED_BUSINESSES.map (mkSeedSponsor loc)).take lim.toNat)
    ∧ (∀ loc : String,
        find_sponsors { location := loc, industries := ["Finance"], limit := 10 }
          = [mkSeedSponsor loc riverBankSeed])
    ∧ (∀ (loc : String) (inds : List String),
        find_sponsors { location := loc, industries := inds, limit := 0 } = []) := by
  refine ⟨rfl, ?_, ?_, ?_, ?_⟩
  · intro req h
    unfold find_sponsors pyTake
    rw [if_pos h]
  · intro loc lim h
    unfold find_sponsors pyTake
    dsimp only
    rw [if_pos h]
    have hf : SEED_BUSINESSES.filter (fun b => industryMatches [] b.industry)
        = SEED_BUSINESSES :=
      List.filter_eq_self.2 (fun b _ => industryMatches_nil b.industry)
    rw [hf]
  · intro loc
    unfold find_sponsors pyTake
    dsimp only
    rw [if_pos (by norm_num), filter_finance]
    rfl
  · intro loc inds
    unfold find_sponsors pyTake
    dsimp only
    rw [if_pos le_rfl]
    rfl

/-- Witness for C4: concrete location and limit. -/
theorem c4_find_sponsors_witness :
    find_sponsors { location := "Portland", industries := [], limit := 2 }
      = (SEED_BUSINESSES.map (mkSeedSponsor "Portland")).take (2 : ℤ).toNat :=
  c4_find_sponsors.2.2.1 "Portland" 2 (by norm_num)

/-- C8: generateProposal is deterministic: the returned Proposal value
is a function of the input alone, independent of the store it is given,
and a second call with the same input (over the store the first call
produced) returns a structurally identical Proposal. -/
theorem c8_generate_proposal_deterministic (inp : ProposalInput) (s₁ s₂ : Store) :
    (generate_proposal inp s₁).1 = (generate_proposal inp s₂).1
    ∧ (generate_proposal inp ((generate_proposal inp s₁).2)).1
        = (generate_proposal inp s₁).1
    ∧ (generate_proposal inp s₁).2.proposals
        = s₁.proposals ++ [(generate_proposal inp s₁).1] :=
  ⟨rfl, rfl, rfl⟩

/-- update_one touches nothing when no document matches. -/
theorem updateFirst_eq_of_no_match {α : Type} (p : α → Bool) (f : α → α) (l : List α)
    (h : ∀ a ∈ l, p a = false) : updateFirst p f l = l := by
  induction l with
  | nil => rfl
  | cons d ds ih =>
    rw [updateFirst, if_neg (by simp [h d (List.mem_cons_self d ds)]),
      ih (fun a ha => h a (List.mem_cons_of_mem d ha))]

/-- update_one rewrites exactly the first matching document. -/
theorem updateFirst_append {α : Type} (p : α → Bool) (f : α → α) (pre : List α) (d : α)
    (post : List α) (hpre : ∀ a ∈ pre, p a = false) (hd : p d = true) :
    updateFirst p f (pre ++ d :: post) = pre ++ f d :: post := by
  induction pre with
  | nil =>
    rw [List.nil_append, updateFirst, if_pos hd, List.nil_append]
  | cons a as ih =>
    rw [List.cons_append, updateFirst, if_neg (by simp [hpre a (List.mem_cons_self a as)]),
      ih (fun x hx => hpre x (List.mem_cons_of_mem a hx)), List.cons_append]

/-- C2 (amended): setSponsorStatus and addSponsorNote fail with the
distinct InvalidIdentifier error (HTTP 400) when the sponsor_id is
malformed; when the id is well-formed but no sponsor document matches
they do not fail with NotFound — the update matches nothing and the
call reports success with the store unchanged; only when a sponsor
matches is its status updated together with an update timestamp. -/
theorem c2_status_and_note_errors :
    (∀ (st : Store) (req : UpdateStatusRequest) (now : Nat),
        isValidObjectId req.sponsor_id = false →
        update_status (some st) req now = .error { code := 400, detail := "Invalid sponsor id" })
    ∧ (∀ (db : Option Store) (req : AddNoteRequest) (now : Nat),
        isValidObjectId req.sponsor_id = false →
        add_note db req now = .error { code := 400, detail := "Invalid sponsor id" })
    ∧ (∀ (st : Store) (req : UpdateStatusRequest) (now : Nat),
        isValidObjectId req.sponsor_id = true →
        (∀ d ∈ st.sponsors, d.oid ≠ req.sponsor_id) →
        update_status (some st) req now = .ok (st, true))
    ∧ (∀ (st : Store) (req : AddNoteRequest) (now : Nat),
        isValidObjectId req.sponsor_id = true →
        (∀ d ∈ st.sponsors, d.oid ≠ req.sponsor_id) →
        add_note (some st) req now = .ok (st, true))
    ∧ (∀ (st : Store) (req : UpdateStatusRequest) (now : Nat)
        (pre post : List SponsorDoc) (d : SponsorDoc),
        isValidObjectId req.sponsor_id = true →
        st.sponsors = pre ++ d :: post →
        (∀ e ∈ pre, e.oid ≠ req.sponsor_id) →
        d.oid = req.sponsor_id →
        update_status (some st) req now
          = .ok ({ st with sponsors := pre ++ ({ d with sponsor := { d.sponsor with status := req.status }, updated_at := some now } : SponsorDoc) :: post }, true)) := by
  refine ⟨?_, ?_, ?_, ?_, ?_⟩
  · intro st req now h
    unfold update_status
    dsimp only
    rw [if_neg (by simp [h])]
  · intro db req now h
    unfold add_note
    rw [if_neg (by simp [h])]
  · intro st req now h hne
    unfold update_status
    dsimp only
    rw [if_pos h, updateFirst_eq_of_no_match _ _ _ (fun d hd => by simp [hne d hd])]
  · intro st req now h hne
    unfold add_note
    rw [if_pos h]
    dsimp only
    rw [updateFirst_eq_of_no_match _ _ _ (fun d hd => by simp [hne d hd])]
  · intro st req now pre post d h hsp hpre hd
    unfold update_status
    dsimp only
    rw [if_pos h, hsp, updateFirst_append _ _ _ _ _ (fun e he => by simp [hpre e he])
      (by simp [hd])]

/-- Witness for C2: a malformed id is rejected with 400, and a
well-formed id absent from the store yields success, on concrete
stores. -/
theorem c2_status_and_note_errors_witness :
    update_status (some store1) { sponsor_id := "not-an-id", status := .confirmed } 3
        = .error { code := 400, detail := "Invalid sponsor id" }
    ∧ update_status (some ({} : Store)) { sponsor_id := "aaaabbbbccccddddeeeeffff", status := .confirmed } 3
        = .ok (({} : Store), true) :=
  ⟨c2_status_and_note_errors.1 store1 { sponsor_id := "not-an-id", status := .confirmed } 3 (by decide),
   c2_status_and_note_errors.2.2.1 ({} : Store)
     { sponsor_id := "aaaabbbbccccddddeeeeffff", status := .confirmed } 3 (by decide)
     (fun d hd => by simp at hd)⟩

/-- Counterexample to C2 as stated: on an empty store, a well-formed
identifier that matches no sponsor document makes both operations
report success instead of failing with NotFound. -/
theorem c2_claim_counterexample :
    update_status (some ({} : Store)) { sponsor_id := "0123456789abcdef01234567", status := .contacted } 0
        = .ok (({} : Store), true)
    ∧ add_note (some ({} : Store)) { sponsor_id := "0123456789abcdef01234567", note := "hi" } 0
        = .ok (({} : Store), true) := by
  exact ⟨by rfl, by rfl⟩

/-- C9: addSponsorNote on an existing sponsor overwrites the single
notes field with the supplied note, updates the timestamp field, and
leaves every other field of the sponsor document unchanged. -/
theorem c9_add_note_frame (st : Store) (note : String) (now : Nat)
    (pre post : List SponsorDoc) (d : SponsorDoc) (sid : String)
    (hvalid : isValidObjectId sid = true)
    (hsp : st.sponsors = pre ++ d :: post)
    (hpre : ∀ e ∈ pre, e.oid ≠ sid)
    (hd : d.oid = sid) :
    ∃ d' : SponsorDoc,
      add_note (some st) { sponsor_id := sid, note := note } now
          = .ok ({ st with sponsors := pre ++ d' :: post }, true)
      ∧ d'.sponsor.notes = some note
      ∧ d'.updated_at = some now
      ∧ d'.oid = d.oid
      ∧ d'.sponsor.name = d.sponsor.name
      ∧ d'.sponsor.industry = d.sponsor.industry
      ∧ d'.sponsor.location = d.sponsor.location
      ∧ d'.sponsor.status = d.sponsor.status
      ∧ d'.sponsor.email = d.sponsor.email
      ∧ d'.sponsor.phone = d.sponsor.phone
      ∧ d'.sponsor.website = d.sponsor.website
      ∧ d'.sponsor.proposal_id = d.sponsor.proposal_id
      ∧ d'.sponsor.next_follow_up = d.sponsor.next_follow_up := by
  refine ⟨{ d with sponsor := { d.sponsor with notes := some note }, updated_at := some now },
    ?_, rfl, rfl, rfl, rfl, rfl, rfl, rfl, rfl, rfl, rfl, rfl, rfl⟩
  unfold add_note
  rw [if_pos hvalid]
  dsimp only
  rw [hsp, updateFirst_append _ _ _ _ _ (fun e he => by simp [hpre e he]) (by simp [hd])]

/-- Witness for C9 on a concrete one-sponsor store. -/
theorem c9_add_note_frame_witness :
    ∃ d' : SponsorDoc,
      add_note (some store1) { sponsor_id := "0123456789abcdef01234567", note := "call back" } 9
          = .ok ({ store1 with sponsors := [] ++ d' :: [] }, true)
      ∧ d'.sponsor.notes = some "call back"
      ∧ d'.updated_at = some 9
      ∧ d'.oid = docA.oid
      ∧ d'.sponsor.name = docA.sponsor.name
      ∧ d'.sponsor.industry = docA.sponsor.industry
      ∧ d'.sponsor.location = docA.sponsor.location
      ∧ d'.sponsor.status = docA.sponsor.status
      ∧ d'.sponsor.email = docA.sponsor.email
      ∧ d'.sponsor.phone = docA.sponsor.phone
      ∧ d'.sponsor.website = docA.sponsor.website
      ∧ d'.sponsor.proposal_id = docA.sponsor.proposal_id
      ∧ d'.sponsor.next_follow_up = docA.sponsor.next_follow_up :=
  c9_add_note_frame store1 "call back" 9 [] [] docA "0123456789abcdef01234567"
    (by decide) rfl (fun e he => by simp at he) rfl

/-- The follow-up comparison used by the dashboard sort is transitive. -/
theorem dueLe_trans (a b c : FollowUpDoc) :
    decide (a.due_date ≤ b.due_date) = true → decide (b.due_date ≤ c.due_date) = true →
    decide (a.due_date ≤ c.due_date) = true := by
  intro h1 h2
  rw [decide_eq_true_eq] at h1 h2 ⊢
  exact le_trans h1 h2

/-- The follow-up comparison used by the dashboard sort is total. -/
theorem dueLe_total (a b : FollowUpDoc) :
    (decide (a.due_date ≤ b.due_date) || decide (b.due_date ≤ a.due_date)) = true := by
  rcases le_total a.due_date b.due_date with h | h <;> simp [h]

/-- C6: dashboardOverview enumerates all 6 status values in order, maps
each to its sponsor count (0 included), returns at most 5 follow-ups
sorted by due_date ascending, and degrades to zero counts and an empty
list when the store handle is unavailable. -/
theorem c6_dashboard_overview :
    (∀ db : Option Store, (dashboard_overview db).1.map Prod.fst = statusNames)
    ∧ (∀ st : Store, ∀ p ∈ (dashboard_overview (some st)).1,
        p.2 = (st.sponsors.filter (fun d => statusToStr d.sponsor.status == p.1)).length)
    ∧ (∀ db : Option Store, (dashboard_overview db).2.length ≤ 5
        ∧ (dashboard_overview db).2.Pairwise (fun a b => a.due_date ≤ b.due_date))
    ∧ ((dashboard_overview none).1 = statusNames.map (fun s => (s, 0))
        ∧ (dashboard_overview none).2 = []) := by
  refine ⟨?_, ?_, ?_, ?_, rfl⟩
  · intro db
    unfold dashboard_overview
    rw [List.map_map]
    exact List.map_id statusNames
  · intro st p hp
    unfold dashboard_overview at hp
    obtain ⟨s, _, rfl⟩ := List.mem_map.1 hp
    rfl
  · intro db
    cases db with
    | none => exact ⟨by decide, List.Pairwise.nil⟩
    | some st =>
      constructor
      · show ((st.followups.mergeSort _).take 5).length ≤ 5
        rw [List.length_take]
        exact min_le_left _ _
      · have hP := @List.sorted_mergeSort FollowUpDoc
          (fun a b => decide (a.due_date ≤ b.due_date)) dueLe_trans dueLe_total st.followups
        have hT : ((st.followups.mergeSort
            (fun a b => decide (a.due_date ≤ b.due_date))).take 5).Pairwise
            (fun a b => decide (a.due_date ≤ b.due_date) = true) :=
          List.Pairwise.sublist (List.take_sublist 5 _) hP
        exact hT.imp (fun h => decide_eq_true_eq.mp h)
  · rfl

/-- Witness for C6: on a one-sponsor store the "new" count is 1. -/
theorem c6_dashboard_overview_witness :
    ("new", 1) ∈ (dashboard_overview (some store1)).1
    ∧ 1 = (store1.sponsors.filter
        (fun d => statusToStr d.sponsor.status == "new")).length := by
  have hm : ("new", 1) ∈ (dashboard_overview (some store1)).1 := by decide
  exact ⟨hm, c6_dashboard_overview.2.1 store1 ("new", 1) hm⟩

/-- C7: composeOutreachEmail does not fail on a sponsor_id that matches
no stored sponsor: it returns the fixed "Partner"/generic-industry
fallback subject and body; and the tone parameter never alters the
output. -/
theorem c7_compose_fallback_and_tone :
    (∀ (st : Store) (req : GenerateEmailRequest),
        (∀ d ∈ st.sponsors, d.oid ≠ req.sponsor_id) →
        generate_outreach_email (some st) req = partnerFallbackEmail)
    ∧ (∀ req : GenerateEmailRequest,
        generate_outreach_email none req = partnerFallbackEmail)
    ∧ (∀ (db : Option Store) (sid : String) (pid : Option String) (t₁ t₂ : Tone),
        generate_outreach_email db { sponsor_id := sid, proposal_id := pid, tone := t₁ }
          = generate_outreach_email db { sponsor_id := sid, proposal_id := pid, tone := t₂ }) := by
  refine ⟨?_, fun req => rfl, fun db sid pid t₁ t₂ => rfl⟩
  intro st req h
  have hlook : lookupSponsor (some st) req.sponsor_id = none := by
    unfold lookupSponsor
    dsimp only
    by_cases he : req.sponsor_id = ""
    · rw [if_neg (by simp [he])]
    · rw [if_pos he]
      by_cases hv : isValidObjectId req.sponsor_id = true
      · rw [if_pos hv, List.find?_eq_none]
        intro d hd
        simp [h d hd]
      · rw [if_neg hv]
  unfold generate_outreach_email
  rw [hlook]
  rfl

/-- Witness for C7: the fallback output on a store whose only sponsor
has a different id. -/
theorem c7_compose_fallback_and_tone_witness :
    generate_outreach_email (some store1)
        { sponsor_id := "ffffffffffffffffffffffff" } = partnerFallbackEmail :=
  c7_compose_fallback_and_tone.1 store1 { sponsor_id := "ffffffffffffffffffffffff" }
    (fun d hd => by
      simp only [store1, List.mem_singleton] at hd
      subst hd
      decide)

/-- C10: a malformed sponsor_id makes composeOutreachEmail return the
same "Partner"/generic-industry fallback output as an absent sponsor
(the lookup failure is swallowed), while setSponsorStatus and
addSponsorNote reject the same identifier with the InvalidIdentifier
error (HTTP 400). -/
theorem c10_compose_malformed_id (db : Option Store) (sid : String) (pid : Option String)
    (tone : Tone) (st : Store) (stat : Status) (note : String) (now : Nat)
    (h : isValidObjectId sid = false) :
    generate_outreach_email db { sponsor_id := sid, proposal_id := pid, tone := tone }
        = partnerFallbackEmail
    ∧ update_status (some st) { sponsor_id := sid, status := stat } now
        = .error { code := 400, detail := "Invalid sponsor id" }
    ∧ add_note db { sponsor_id := sid, note := note } now
        = .error { code := 400, detail := "Invalid sponsor id" } := by
  refine ⟨?_, ?_, ?_⟩
  · have hlook : lookupSponsor db sid = none := by
      unfold lookupSponsor
      cases db with
      | none => rfl
      | some s =>
        dsimp only
        by_cases he : sid = ""
        · rw [if_neg (by simp [he])]
        · rw [if_pos he, if_neg (by simp [h])]
    unfold generate_outreach_email
    dsimp only
    rw [hlook]
    rfl
  · unfold update_status
    dsimp only
    rw [if_neg (by simp [h])]
  · unfold add_note
    rw [if_neg (by simp [h])]

/-- Witness for C10 at the malformed identifier "abc". -/
theorem c10_compose_malformed_id_witness :
    generate_outreach_email (some store1) { sponsor_id := "abc" } = partnerFallbackEmail
    ∧ update_status (some store1) { sponsor_id := "abc", status := .pending } 4
        = .error { code := 400, detail := "Invalid sponsor id" }
    ∧ add_note (some store1) { sponsor_id := "abc", note := "x" } 4
        = .error { code := 400, detail := "Invalid sponsor id" } :=
  c10_compose_malformed_id (some store1) "abc" none .professional store1 .pending "x" 4
    (by decide)

end SponsorshipManager
